import Mathlib

/-!
Shallow embedding of the order-placement, cancellation, payment and
inventory code of the 67backend repository.

Conventions of the embedding:
* SQL tables are lists of records; primary-key lookups are first-match
  `List.find?`, mirroring the ORM identity map.
* `Numeric(10,2)` money columns and Python float prices are modelled as
  integer minor units (`Int`): the handlers only copy prices, multiply
  them by integer quantities and add the results, so integer-valued
  prices capture the arithmetic exactly.
* Timestamps (`datetime.utcnow()`) are modelled as an ambient `now : Nat`
  passed into each handler.
* Each HTTP handler is a function `DB → args → DB × Except ApiError out`.
  An error result pairs with the pre-call `DB`, mirroring
  `db.session.rollback()` on every error path (and request-scoped
  sessions for paths that return before any commit).
-/

deriving instance DecidableEq for Except

namespace FoodOrder

/-- Product row, from src/models/products.py (class Product). Columns not
read by the modelled handlers (description, category, imageUrl, timestamps)
are omitted. -/
structure Product where
  productId : Nat
  sellerId : Nat
  productName : String
  unitPrice : Int
  isAvailable : Bool
deriving DecidableEq

/-- Inventory row, from src/models/products.py (class Inventory).
`quantityInStock` is an Int column; `lastRestocked` and `updatedAt` are
timestamps. -/
structure Inventory where
  productId : Nat
  quantityInStock : Int
  reorderLevel : Int
  lastRestocked : Option Nat
  updatedAt : Nat
deriving DecidableEq

/-- Inventory.update_stock from src/models/products.py: add the (signed)
change, refresh lastRestocked only on positive deltas. -/
def Inventory.update_stock (inv : Inventory) (quantityChange : Int) (now : Nat) : Inventory :=
  let inv := { inv with quantityInStock := inv.quantityInStock + quantityChange }
  let inv := if quantityChange > 0 then { inv with lastRestocked := some now } else inv
  { inv with updatedAt := now }

/-- Inventory.check_availability from src/models/products.py:
`self.quantityInStock >= quantity`. -/
def Inventory.check_availability (inv : Inventory) (quantity : Int) : Bool :=
  inv.quantityInStock >= quantity

/-- Order row, from src/models/order.py (class Order). `type` is the
fulfillment type column (Delivery or Pickup). -/
structure Order where
  orderId : Nat
  customerId : Nat
  sellerId : Nat
  status : String
  type : String
  totalAmount : Int
  deliveryAddress : Option String
  notes : Option String
deriving DecidableEq

/-- OrderItem row, from src/models/order.py (class OrderItem). -/
structure OrderItem where
  orderItemId : Nat
  orderId : Nat
  productId : Nat
  quantity : Int
  subtotal : Int
deriving DecidableEq

/-- Delivery row, from src/models/order.py (class Delivery). -/
structure Delivery where
  orderId : Nat
  deliveryAddress : String
  estimatedTime : Option Nat
  courseStatus : String
deriving DecidableEq

/-- Payment row, from src/models/transaction.py (class Payment). -/
structure Payment where
  orderId : Nat
  amount : Int
  paymentMethod : String
  status : String
  transactionId : String
deriving DecidableEq

/-- The relational store: one list per table, plus auto-increment counters
for the primary keys the handlers read back after `flush()`. -/
structure DB where
  products : List Product
  inventories : List Inventory
  orders : List Order
  order_items : List OrderItem
  deliveries : List Delivery
  payments : List Payment
  nextOrderId : Nat
  nextOrderItemId : Nat
deriving DecidableEq

/-- Product.query.get(product_id). -/
def DB.getProduct (db : DB) (pid : Nat) : Option Product :=
  db.products.find? (fun p => p.productId == pid)

/-- product.inventory (one-to-one relationship keyed by productId). -/
def DB.getInventory (db : DB) (pid : Nat) : Option Inventory :=
  db.inventories.find? (fun i => i.productId == pid)

/-- Order.query.get(order_id). -/
def DB.getOrder (db : DB) (oid : Nat) : Option Order :=
  db.orders.find? (fun o => o.orderId == oid)

/-- order.payment (one-to-one relationship keyed by orderId). -/
def DB.getPayment (db : DB) (oid : Nat) : Option Payment :=
  db.payments.find? (fun p => p.orderId == oid)

/-- order.order_items (one-to-many relationship keyed by orderId, in
insertion order). -/
def DB.itemsOfOrder (db : DB) (oid : Nat) : List OrderItem :=
  db.order_items.filter (fun it => it.orderId == oid)

/-- Mutate the first record matching `p`, mirroring an ORM write through a
fetched row object (primary-key and unique columns make the match unique
in a well-formed store). -/
def updateFirst {α : Type} (p : α → Bool) (f : α → α) : List α → List α
  | [] => []
  | a :: rest => if p a then f a :: rest else a :: updateFirst p f rest

/-- Error taxonomy of the modelled handlers, one constructor per distinct
error response in the source. -/
inductive ApiError where
  | itemsRequired
  | itemMissingProductId (idx : Nat)
  | itemMissingQuantity (idx : Nat)
  | firstProductNotFound
  | productNotFound (pid : Nat)
  | productUnavailable (pid : Nat)
  | insufficientStock (pid : Nat)
  | deliveryAddressRequired
  | orderNotFound
  | notYourOrder
  | cannotCancel (status : String)
  | paymentExists
  | paymentMethodRequired
  | invalidStatus
  | productNotFoundSeller
  | quantityChangeRequired
  | quantityChangeZero
deriving DecidableEq

/-- One entry of the request JSON list data['items']; an absent key is
`none` (the structure-validation loop checks presence). -/
structure OrderItemReq where
  productId : Option Nat
  quantity : Option Int
  unitPrice : Option Int
deriving DecidableEq

/-- Request body of POST /orders/create. -/
structure CreateOrderReq where
  items : Option (List OrderItemReq)
  type : Option String
  deliveryAddress : Option String
  notes : Option String
  estimatedTime : Option Nat
deriving DecidableEq

/-- The per-item structure-validation loop of create_order
(src/routes/order_routes.py lines 70 to 80): every item must carry
productId and quantity keys; first violation wins, with its index. -/
def validateItems : List OrderItemReq → Nat → Option ApiError
  | [], _ => none
  | it :: rest, idx =>
    if it.productId.isNone then some (.itemMissingProductId idx)
    else if it.quantity.isNone then some (.itemMissingQuantity idx)
    else validateItems rest (idx + 1)

/-- The item-processing loop of create_order (src/routes/order_routes.py
lines 112 to 174): per line, in input order, resolve the product, check
availability, check stock when an inventory record exists (a product with
no inventory record skips both the stock check and the decrement, as in
the WARNING branch of the source), price the line using the caller
override when supplied else the catalog price, stage one OrderItem,
accumulate the total, and decrement stock when an inventory record
exists. Threads the session views of the inventory table, the staged
items, the running total and the item auto-increment counter. -/
def processOrderItems (products : List Product) (orderId now : Nat) :
    List OrderItemReq → List Inventory → List OrderItem → Int → Nat →
      Except ApiError (List Inventory × List OrderItem × Int × Nat)
  | [], invs, acc, total, nid => .ok (invs, acc, total, nid)
  | line :: rest, invs, acc, total, nid =>
    match line.productId, line.quantity with
    | some pid, some quantity =>
      match products.find? (fun p => p.productId == pid) with
      | none => .error (.productNotFound pid)
      | some product =>
        if product.isAvailable = false then .error (.productUnavailable pid)
        else
          match invs.find? (fun i => i.productId == pid) with
          | some inv =>
            if inv.check_availability quantity = false then .error (.insufficientStock pid)
            else
              let unit_price := line.unitPrice.getD product.unitPrice
              let subtotal := unit_price * quantity
              let invs' := updateFirst (fun i => i.productId == pid)
                (fun i => i.update_stock (-quantity) now) invs
              processOrderItems products orderId now rest invs'
                (acc ++ [⟨nid, orderId, pid, quantity, subtotal⟩]) (total + subtotal) (nid + 1)
          | none =>
            let unit_price := line.unitPrice.getD product.unitPrice
            let subtotal := unit_price * quantity
            processOrderItems products orderId now rest invs
              (acc ++ [⟨nid, orderId, pid, quantity, subtotal⟩]) (total + subtotal) (nid + 1)
    | none, _ => .error (.itemMissingProductId 0)
    | some _, none => .error (.itemMissingQuantity 0)

/-- create_order from src/routes/order_routes.py (lines 29 to 228),
after the CORS and JWT plumbing: validate the items list, resolve the
seller from the first line, stage the order header, process every line,
set the total, require and stage a delivery record for Delivery orders,
then commit. Every error path returns the pre-call store (rollback). -/
def create_order (db : DB) (customerId : Nat) (req : CreateOrderReq) (now : Nat) :
    DB × Except ApiError Nat :=
  match req.items with
  | none => (db, .error .itemsRequired)
  | some [] => (db, .error .itemsRequired)
  | some (first :: rest) =>
    match validateItems (first :: rest) 0 with
    | some e => (db, .error e)
    | none =>
      match db.getProduct (first.productId.getD 0) with
      | none => (db, .error .firstProductNotFound)
      | some first_product =>
        let oid := db.nextOrderId
        let order : Order :=
          { orderId := oid, customerId := customerId, sellerId := first_product.sellerId,
            status := "Pending", type := req.type.getD "Delivery", totalAmount := 0,
            deliveryAddress := req.deliveryAddress, notes := req.notes }
        match processOrderItems db.products oid now (first :: rest)
            db.inventories [] 0 db.nextOrderItemId with
        | .error e => (db, .error e)
        | .ok (invs', newItems, total_amount, nid') =>
          let order := { order with totalAmount := total_amount }
          if order.type == "Delivery" then
            -- data.get('deliveryAddress') is falsy both when absent and when empty
            if req.deliveryAddress.getD "" == "" then (db, .error .deliveryAddressRequired)
            else
              let delivery : Delivery :=
                { orderId := oid, deliveryAddress := req.deliveryAddress.getD "",
                  estimatedTime := req.estimatedTime, courseStatus := "Scheduled" }
              ({ db with orders := db.orders ++ [order],
                         order_items := db.order_items ++ newItems,
                         inventories := invs',
                         deliveries := db.deliveries ++ [delivery],
                         nextOrderId := oid + 1, nextOrderItemId := nid' }, .ok oid)
          else
            ({ db with orders := db.orders ++ [order],
                       order_items := db.order_items ++ newItems,
                       inventories := invs',
                       nextOrderId := oid + 1, nextOrderItemId := nid' }, .ok oid)

/-- The inventory-restore loop of cancel_order
(src/routes/order_routes.py lines 307 to 310): for each line of the
order, in order, add the line quantity back to the stock of the line's
product when that product has an inventory record. -/
def releaseItems (now : Nat) (items : List OrderItem) (invs : List Inventory) :
    List Inventory :=
  items.foldl
    (fun invs item => updateFirst (fun i => i.productId == item.productId)
      (fun i => i.update_stock item.quantity now) invs)
    invs

/-- cancel_order from src/routes/order_routes.py (lines 284 to 323):
fetch by order id, check ownership, reject only the Delivered and
Cancelled statuses, set the status to Cancelled and restore stock for
every line whose product has an inventory record (item.product exists by
the foreign-key constraint on order_item.productId). -/
def cancel_order (db : DB) (customerId orderId now : Nat) : DB × Except ApiError Unit :=
  match db.getOrder orderId with
  | none => (db, .error .orderNotFound)
  | some order =>
    if order.customerId != customerId then (db, .error .notYourOrder)
    else if order.status == "Delivered" || order.status == "Cancelled" then
      (db, .error (.cannotCancel order.status))
    else
      let orders' := updateFirst (fun o => o.orderId == orderId)
        (fun o => { o with status := "Cancelled" }) db.orders
      let invs' := releaseItems now (db.itemsOfOrder orderId) db.inventories
      ({ db with orders := orders', inventories := invs' }, .ok ())

/-- cancel_order from src/routes/customer_routes.py (lines 108 to 134):
fetch by order id and customer id, allow only the Pending and Confirmed
statuses, set the status to Cancelled. This revision restores no
inventory. -/
def customer_cancel_order (db : DB) (customerId orderId : Nat) : DB × Except ApiError Unit :=
  match db.orders.find? (fun o => o.orderId == orderId && o.customerId == customerId) with
  | none => (db, .error .orderNotFound)
  | some order =>
    if !(order.status == "Pending" || order.status == "Confirmed") then
      (db, .error (.cannotCancel order.status))
    else
      let orders' := updateFirst
        (fun o => o.orderId == orderId && o.customerId == customerId)
        (fun o => { o with status := "Cancelled" }) db.orders
      ({ db with orders := orders' }, .ok ())

/-- Request body of POST /orders/(id)/payment. The handler reads only
paymentMethod; an amount key, if sent, is never read. -/
structure PaymentReq where
  paymentMethod : Option String
  amount : Option Int
deriving DecidableEq

/-- create_payment from src/routes/order_routes.py (lines 328 to 391):
fetch the order, check ownership, reject when a payment is already
attached, require paymentMethod, record a Payment whose amount is the
order total and whose status is Successful, and set the order status to
Confirmed. `txid` stands for the generated uuid4 string. -/
def create_payment (db : DB) (customerId orderId : Nat) (req : PaymentReq) (txid : String) :
    DB × Except ApiError Unit :=
  match db.getOrder orderId with
  | none => (db, .error .orderNotFound)
  | some order =>
    if order.customerId != customerId then (db, .error .notYourOrder)
    else
      match db.getPayment orderId with
      | some _ => (db, .error .paymentExists)
      | none =>
        match req.paymentMethod with
        | none => (db, .error .paymentMethodRequired)
        | some method =>
          let payment : Payment :=
            { orderId := order.orderId, amount := order.totalAmount,
              paymentMethod := method, status := "Successful", transactionId := txid }
          ({ db with payments := db.payments ++ [payment],
                     orders := updateFirst (fun o => o.orderId == orderId)
                       (fun o => { o with status := "Confirmed" }) db.orders }, .ok ())

/-- The fixed allow-list of update_order_status in
src/routes/seller_routes.py (line 487). -/
def valid_statuses : List String :=
  ["Pending", "Confirmed", "Preparing", "Ready", "Delivered", "Completed", "Cancelled"]

/-- update_order_status from src/routes/seller_routes.py (lines 471 to
503): fetch the order by order id and seller id, validate the requested
status only against the fixed allow-list (a missing status key is None,
which is not in the list), and overwrite the status. The handler also
refreshes order.updatedAt; Order timestamp columns are not part of this
model. -/
def update_order_status (db : DB) (sellerId orderId : Nat) (newStatus : Option String) :
    DB × Except ApiError Unit :=
  match db.orders.find? (fun o => o.orderId == orderId && o.sellerId == sellerId) with
  | none => (db, .error .orderNotFound)
  | some _ =>
    match newStatus with
    | none => (db, .error .invalidStatus)
    | some s =>
      if !valid_statuses.contains s then (db, .error .invalidStatus)
      else
        let orders' := updateFirst
          (fun o => o.orderId == orderId && o.sellerId == sellerId)
          (fun o => { o with status := s }) db.orders
        ({ db with orders := orders' }, .ok ())

/-- The in-place stock adjustment of update_inventory
(src/routes/seller_routes.py lines 352 to 362): add the change, clamp a
negative result to zero, refresh lastRestocked only on positive changes. -/
def restockAdjust (qc : Int) (now : Nat) (inv : Inventory) : Inventory :=
  let inv := { inv with quantityInStock := inv.quantityInStock + qc }
  let inv := if inv.quantityInStock < 0 then { inv with quantityInStock := 0 } else inv
  let inv := if qc > 0 then { inv with lastRestocked := some now } else inv
  { inv with updatedAt := now }

/- Concrete stores used to evaluate the handlers on explicit inputs. -/

/-- An available catalog product with an inventory record. -/
def exProduct : Product :=
  { productId := 1, sellerId := 3, productName := "Adobo", unitPrice := 10,
    isAvailable := true }

/-- An available catalog product that has no inventory record in dbB. -/
def exProduct2 : Product :=
  { productId := 2, sellerId := 3, productName := "Sinigang", unitPrice := 5,
    isAvailable := true }

/-- Inventory record for exProduct with five units in stock. -/
def exInv : Inventory :=
  { productId := 1, quantityInStock := 5, reorderLevel := 10, lastRestocked := none,
    updatedAt := 0 }

/-- Store with one product in stock and no orders. -/
def dbA : DB :=
  { products := [exProduct], inventories := [exInv], orders := [], order_items := [],
    deliveries := [], payments := [], nextOrderId := 1, nextOrderItemId := 1 }

/-- Store where product 2 exists in the catalog but has no inventory row. -/
def dbB : DB :=
  { dbA with products := [exProduct, exProduct2] }

/-- A Pending pickup order of customer 7 at seller 3, two units of
product 1. -/
def exOrder : Order :=
  { orderId := 1, customerId := 7, sellerId := 3, status := "Pending", type := "Pickup",
    totalAmount := 20, deliveryAddress := none, notes := none }

/-- The single line of exOrder. -/
def exItem : OrderItem :=
  { orderItemId := 1, orderId := 1, productId := 1, quantity := 2, subtotal := 20 }

/-- Store holding exOrder, its line, the product and its stock of five. -/
def dbC : DB :=
  { products := [exProduct], inventories := [exInv], orders := [exOrder],
    order_items := [exItem], deliveries := [], payments := [],
    nextOrderId := 2, nextOrderItemId := 2 }

/-- dbC with the order already advanced to Preparing. -/
def dbD : DB :=
  { dbC with orders := [{ exOrder with status := "Preparing" }] }

/-- dbA with the stock of product 1 at zero. -/
def dbE : DB :=
  { dbA with inventories := [{ exInv with quantityInStock := 0 }] }

/-- A request ordering `q` units of product 1 for pickup. -/
def pickupReq (q : Int) : CreateOrderReq :=
  { items := some [{ productId := some 1, quantity := some q, unitPrice := none }],
    type := some "Pickup", deliveryAddress := none, notes := none, estimatedTime := none }

/-- A request ordering three units of product 2 for pickup. -/
def pickup2Req : CreateOrderReq :=
  { items := some [{ productId := some 2, quantity := some 3, unitPrice := none }],
    type := some "Pickup", deliveryAddress := none, notes := none, estimatedTime := none }

/-- update_inventory from src/routes/seller_routes.py (lines 307 to 411),
the seller restock operation: fetch the product by product id and seller
id, require a non-zero quantity_change, then either adjust the existing
inventory record, clamping a negative result to zero, or create a fresh
record with stock max(0, quantity_change). -/
def update_inventory (db : DB) (sellerId productId : Nat) (quantity_change : Option Int)
    (now : Nat) : DB × Except ApiError Unit :=
  match db.products.find? (fun p => p.productId == productId && p.sellerId == sellerId) with
  | none => (db, .error .productNotFoundSeller)
  | some _ =>
    match quantity_change with
    | none => (db, .error .quantityChangeRequired)
    | some qc =>
      if qc == 0 then (db, .error .quantityChangeZero)
      else
        match db.getInventory productId with
        | some _ =>
          let invs' := updateFirst (fun i => i.productId == productId)
            (restockAdjust qc now) db.inventories
          ({ db with inventories := invs' }, .ok ())
        | none =>
          let inv : Inventory :=
            { productId := productId, quantityInStock := max 0 qc, reorderLevel := 10,
              lastRestocked := if qc > 0 then some now else none, updatedAt := now }
          ({ db with inventories := db.inventories ++ [inv] }, .ok ())

/-! Generic facts about first-match updates. -/

/-- Updating a record nothing matches is a no-op. -/
theorem updateFirst_of_find?_none {α : Type} (p : α → Bool) (f : α → α) (l : List α)
    (h : l.find? p = none) : updateFirst p f l = l := by
  induction l with
  | nil => rfl
  | cons a t ih =>
    by_cases ha : p a
    · simp [List.find?_cons_of_pos _ ha] at h
    · rw [List.find?_cons_of_neg _ ha] at h
      simp [updateFirst, ha, ih h]

/-- Looking up by the same key after a key-preserving first-match update
returns the updated record. -/
theorem find?_updateFirst_self {α : Type} (p : α → Bool) (f : α → α) (l : List α)
    (hf : ∀ a, p (f a) = p a) :
    (updateFirst p f l).find? p = (l.find? p).map f := by
  induction l with
  | nil => rfl
  | cons a t ih =>
    by_cases ha : p a
    · simp [updateFirst, ha, List.find?_cons_of_pos _ ha,
        List.find?_cons_of_pos _ ((hf a).trans (by simp [ha]))]
    · simp [updateFirst, ha, List.find?_cons_of_neg _ ha,
        List.find?_cons_of_neg t ha, ih]

/-- Looking up by a key disjoint from the updated one is unaffected by a
key-preserving first-match update. -/
theorem find?_updateFirst_disjoint {α : Type} (p q : α → Bool) (f : α → α) (l : List α)
    (hpq : ∀ a, p a = true → q a = false) (hq : ∀ a, q (f a) = q a) :
    (updateFirst p f l).find? q = l.find? q := by
  induction l with
  | nil => rfl
  | cons a t ih =>
    by_cases ha : p a
    · have hqa : q a = false := hpq a ha
      have hqfa : q (f a) = false := (hq a).trans hqa
      simp only [updateFirst, if_pos ha]
      rw [List.find?_cons_of_neg _ (by simp [hqfa]), List.find?_cons_of_neg _ (by simp [hqa])]
    · by_cases hqa : q a
      · simp [updateFirst, ha, List.find?_cons_of_pos _ hqa]
      · simp [updateFirst, ha, List.find?_cons_of_neg _ hqa,
          List.find?_cons_of_neg _ hqa, ih]

/-- Every record of a first-match update is an old record or the image of
the found one. -/
theorem mem_updateFirst {α : Type} (p : α → Bool) (f : α → α) (l : List α) (b : α)
    (h : b ∈ updateFirst p f l) :
    b ∈ l ∨ ∃ a, l.find? p = some a ∧ b = f a := by
  induction l with
  | nil => simp [updateFirst] at h
  | cons a t ih =>
    by_cases ha : p a
    · simp only [updateFirst, if_pos ha, List.mem_cons] at h
      rcases h with h | h
      · exact Or.inr ⟨a, List.find?_cons_of_pos _ ha, h⟩
      · exact Or.inl (List.mem_cons_of_mem a h)
    · simp only [updateFirst, if_neg ha, List.mem_cons] at h
      rcases h with h | h
      · exact Or.inl (h ▸ List.mem_cons_self a t)
      · rcases ih h with h2 | ⟨c, hc, hb⟩
        · exact Or.inl (List.mem_cons_of_mem a h2)
        · exact Or.inr ⟨c, by rw [List.find?_cons_of_neg _ ha]; exact hc, hb⟩

/-! Branch equations and inversions for create_order. -/

/-- A request without an items key is rejected unchanged. -/
theorem create_order_items_none_eq (db : DB) (cid : Nat) (req : CreateOrderReq) (now : Nat)
    (hi : req.items = none) :
    create_order db cid req now = (db, .error .itemsRequired) := by
  simp [create_order, hi]

/-- A request with an empty items list is rejected unchanged. -/
theorem create_order_items_nil_eq (db : DB) (cid : Nat) (req : CreateOrderReq) (now : Nat)
    (hi : req.items = some []) :
    create_order db cid req now = (db, .error .itemsRequired) := by
  simp [create_order, hi]

/-- A request failing the item-structure validation is rejected
unchanged with the validation error. -/
theorem create_order_validate_eq (db : DB) (cid : Nat) (req : CreateOrderReq) (now : Nat)
    (first : OrderItemReq) (rest : List OrderItemReq) (e : ApiError)
    (hi : req.items = some (first :: rest))
    (hv : validateItems (first :: rest) 0 = some e) :
    create_order db cid req now = (db, .error e) := by
  simp [create_order, hi, hv]

/-- A request whose first product does not resolve is rejected
unchanged. -/
theorem create_order_first_product_eq (db : DB) (cid : Nat) (req : CreateOrderReq) (now : Nat)
    (first : OrderItemReq) (rest : List OrderItemReq)
    (hi : req.items = some (first :: rest))
    (hv : validateItems (first :: rest) 0 = none)
    (hp : db.getProduct (first.productId.getD 0) = none) :
    create_order db cid req now = (db, .error .firstProductNotFound) := by
  simp [create_order, hi, hv, hp]

/-- A request whose item loop fails is rejected unchanged with the loop
error. -/
theorem create_order_loop_error_eq (db : DB) (cid : Nat) (req : CreateOrderReq) (now : Nat)
    (first : OrderItemReq) (rest : List OrderItemReq) (fp : Product) (e : ApiError)
    (hi : req.items = some (first :: rest))
    (hv : validateItems (first :: rest) 0 = none)
    (hp : db.getProduct (first.productId.getD 0) = some fp)
    (hproc : processOrderItems db.products db.nextOrderId now (first :: rest)
      db.inventories [] 0 db.nextOrderItemId = .error e) :
    create_order db cid req now = (db, .error e) := by
  simp [create_order, hi, hv, hp, hproc]

/-- Success equation for a non-Delivery order. -/
theorem create_order_eq_nodelivery (db : DB) (cid : Nat) (req : CreateOrderReq) (now : Nat)
    (first : OrderItemReq) (rest : List OrderItemReq) (fp : Product)
    (invs' : List Inventory) (newItems : List OrderItem) (total : Int) (nid' : Nat)
    (hi : req.items = some (first :: rest))
    (hv : validateItems (first :: rest) 0 = none)
    (hp : db.getProduct (first.productId.getD 0) = some fp)
    (hproc : processOrderItems db.products db.nextOrderId now (first :: rest)
      db.inventories [] 0 db.nextOrderItemId = .ok (invs', newItems, total, nid'))
    (ht : (req.type.getD "Delivery" == "Delivery") = false) :
    create_order db cid req now =
      ({ products := db.products, inventories := invs',
         orders := db.orders ++
           [{ orderId := db.nextOrderId, customerId := cid, sellerId := fp.sellerId,
              status := "Pending", type := req.type.getD "Delivery", totalAmount := total,
              deliveryAddress := req.deliveryAddress, notes := req.notes }],
         order_items := db.order_items ++ newItems, deliveries := db.deliveries,
         payments := db.payments, nextOrderId := db.nextOrderId + 1,
         nextOrderItemId := nid' }, .ok db.nextOrderId) := by
  simp [create_order, hi, hv, hp, hproc, ht]

/-- Success equation for a Delivery order with a non-empty address. -/
theorem create_order_eq_delivery (db : DB) (cid : Nat) (req : CreateOrderReq) (now : Nat)
    (first : OrderItemReq) (rest : List OrderItemReq) (fp : Product)
    (invs' : List Inventory) (newItems : List OrderItem) (total : Int) (nid' : Nat)
    (hi : req.items = some (first :: rest))
    (hv : validateItems (first :: rest) 0 = none)
    (hp : db.getProduct (first.productId.getD 0) = some fp)
    (hproc : processOrderItems db.products db.nextOrderId now (first :: rest)
      db.inventories [] 0 db.nextOrderItemId = .ok (invs', newItems, total, nid'))
    (ht : (req.type.getD "Delivery" == "Delivery") = true)
    (ha : (req.deliveryAddress.getD "" == "") = false) :
    create_order db cid req now =
      ({ products := db.products, inventories := invs',
         orders := db.orders ++
           [{ orderId := db.nextOrderId, customerId := cid, sellerId := fp.sellerId,
              status := "Pending", type := req.type.getD "Delivery", totalAmount := total,
              deliveryAddress := req.deliveryAddress, notes := req.notes }],
         order_items := db.order_items ++ newItems,
         deliveries := db.deliveries ++
           [{ orderId := db.nextOrderId, deliveryAddress := req.deliveryAddress.getD "",
              estimatedTime := req.estimatedTime, courseStatus := "Scheduled" }],
         payments := db.payments, nextOrderId := db.nextOrderId + 1,
         nextOrderItemId := nid' }, .ok db.nextOrderId) := by
  simp [create_order, hi, hv, hp, hproc, ht, ha]

/-- Every create_order call either leaves the store untouched or
succeeds with the fresh order id. -/
theorem create_order_fst_or_ok (db : DB) (cid : Nat) (req : CreateOrderReq) (now : Nat) :
    (create_order db cid req now).1 = db ∨
      (create_order db cid req now).2 = .ok db.nextOrderId := by
  unfold create_order
  rcases hi : req.items with _ | (_ | ⟨first, rest⟩)
  · simp
  · simp
  · rcases hv : validateItems (first :: rest) 0 with _ | e
    · rcases hp : db.getProduct (first.productId.getD 0) with _ | fp
      · simp [hv, hp]
      · rcases hproc : processOrderItems db.products db.nextOrderId now (first :: rest)
          db.inventories [] 0 db.nextOrderItemId with e | ⟨invs', newItems, total, nid'⟩
        · simp [hv, hp, hproc]
        · simp only [hv, hp, hproc]
          by_cases ht : (req.type.getD "Delivery" == "Delivery") = true
          · by_cases ha : (req.deliveryAddress.getD "" == "") = true <;> simp [ht, ha]
          · simp [ht]
    · simp [hv]

/-- Inversion of a successful create_order call: the order id is the
fresh one, the item loop succeeded, and the committed store appends the
order header (carrying the accumulated total) and the staged items. -/
theorem create_order_ok_spec (db : DB) (cid : Nat) (req : CreateOrderReq) (now oid : Nat)
    (h : (create_order db cid req now).2 = .ok oid) :
    oid = db.nextOrderId ∧
    ∃ first rest invs' newItems total nid' fp,
      req.items = some (first :: rest) ∧
      validateItems (first :: rest) 0 = none ∧
      db.getProduct (first.productId.getD 0) = some fp ∧
      processOrderItems db.products db.nextOrderId now (first :: rest)
        db.inventories [] 0 db.nextOrderItemId = .ok (invs', newItems, total, nid') ∧
      (create_order db cid req now).1.inventories = invs' ∧
      (create_order db cid req now).1.order_items = db.order_items ++ newItems ∧
      (create_order db cid req now).1.payments = db.payments ∧
      (create_order db cid req now).1.orders = db.orders ++
        [{ orderId := db.nextOrderId, customerId := cid, sellerId := fp.sellerId,
           status := "Pending", type := req.type.getD "Delivery", totalAmount := total,
           deliveryAddress := req.deliveryAddress, notes := req.notes }] := by
  rcases hi : req.items with _ | (_ | ⟨first, rest⟩)
  · rw [create_order_items_none_eq db cid req now hi] at h; cases h
  · rw [create_order_items_nil_eq db cid req now hi] at h; cases h
  · rcases hv : validateItems (first :: rest) 0 with _ | e
    · rcases hp : db.getProduct (first.productId.getD 0) with _ | fp
      · rw [create_order_first_product_eq db cid req now first rest hi hv hp] at h; cases h
      · rcases hproc : processOrderItems db.products db.nextOrderId now (first :: rest)
          db.inventories [] 0 db.nextOrderItemId with e | ⟨invs', newItems, total, nid'⟩
        · rw [create_order_loop_error_eq db cid req now first rest fp e hi hv hp hproc] at h
          cases h
        · by_cases ht : (req.type.getD "Delivery" == "Delivery") = true
          · by_cases ha : (req.deliveryAddress.getD "" == "") = true
            · have : create_order db cid req now = (db, .error .deliveryAddressRequired) := by
                simp [create_order, hi, hv, hp, hproc, ht, ha]
              rw [this] at h; cases h
            · have heq := create_order_eq_delivery db cid req now first rest fp invs'
                newItems total nid' hi hv hp hproc ht (by simpa using ha)
              rw [heq] at h ⊢
              cases h
              exact ⟨rfl, first, rest, invs', newItems, total, nid', fp, rfl, hv, hp,
                hproc, rfl, rfl, rfl, rfl⟩
          · have heq := create_order_eq_nodelivery db cid req now first rest fp invs'
              newItems total nid' hi hv hp hproc (by simpa using ht)
            rw [heq] at h ⊢
            cases h
            exact ⟨rfl, first, rest, invs', newItems, total, nid', fp, rfl, hv, hp,
              hproc, rfl, rfl, rfl, rfl⟩
    · rw [create_order_validate_eq db cid req now first rest e hi hv] at h; cases h

/-- Inversion of a successful item loop: the staged items extend the
accumulator, the total extends by their subtotals, and every staged item
prices a request line with the override price when present else the
catalog price. -/
theorem processOrderItems_ok_spec (products : List Product) (oid now : Nat)
    (lines : List OrderItemReq) :
    ∀ invs acc total nid invs' items' total' nid',
    processOrderItems products oid now lines invs acc total nid =
        .ok (invs', items', total', nid') →
    ∃ newItems, items' = acc ++ newItems ∧
      total' = total + (newItems.map OrderItem.subtotal).sum ∧
      ∀ it ∈ newItems, it.orderId = oid ∧
        ∃ line ∈ lines, ∃ p,
          products.find? (fun x => x.productId == it.productId) = some p ∧
          line.productId = some it.productId ∧ line.quantity = some it.quantity ∧
          it.subtotal = line.unitPrice.getD p.unitPrice * it.quantity := by
  induction lines with
  | nil =>
    intro invs acc total nid invs' items' total' nid' h
    simp only [processOrderItems, Except.ok.injEq, Prod.mk.injEq] at h
    refine ⟨[], by simp [h.2.1], by simp [h.2.2.1], by simp⟩
  | cons line rest ih =>
    intro invs acc total nid invs' items' total' nid' h
    rcases hpid : line.productId with _ | pid
    · simp [processOrderItems, hpid] at h
    rcases hq : line.quantity with _ | qty
    · simp [processOrderItems, hpid, hq] at h
    rcases hfind : products.find? (fun p => p.productId == pid) with _ | product
    · simp [processOrderItems, hpid, hq, hfind] at h
    rcases hav : product.isAvailable with _ | _
    · simp [processOrderItems, hpid, hq, hfind, hav] at h
    rcases hinv : invs.find? (fun i => i.productId == pid) with _ | inv
    · -- no inventory record: the line is staged without a stock check
      simp only [processOrderItems, hpid, hq, hfind, hav, hinv, Bool.true_eq_false,
        if_false] at h
      obtain ⟨newItems, hitems, htot, hall⟩ := ih _ _ _ _ _ _ _ _ h
      refine ⟨⟨nid, oid, pid, qty, line.unitPrice.getD product.unitPrice * qty⟩ :: newItems,
        by simp [hitems], by simp [htot]; ring, ?_⟩
      intro it hit
      rcases List.mem_cons.mp hit with hit | hit
      · subst hit
        exact ⟨rfl, line, List.mem_cons_self _ _, product, hfind, hpid, hq, rfl⟩
      · obtain ⟨ho, l, hl, p, hfp, h1, h2, h3⟩ := hall it hit
        exact ⟨ho, l, List.mem_cons_of_mem _ hl, p, hfp, h1, h2, h3⟩
    · rcases hchk : inv.check_availability qty with _ | _
      · simp [processOrderItems, hpid, hq, hfind, hav, hinv, hchk] at h
      · simp only [processOrderItems, hpid, hq, hfind, hav, hinv, hchk, Bool.true_eq_false,
          if_false] at h
        obtain ⟨newItems, hitems, htot, hall⟩ := ih _ _ _ _ _ _ _ _ h
        refine ⟨⟨nid, oid, pid, qty, line.unitPrice.getD product.unitPrice * qty⟩ :: newItems,
          by simp [hitems], by simp [htot]; ring, ?_⟩
        intro it hit
        rcases List.mem_cons.mp hit with hit | hit
        · subst hit
          exact ⟨rfl, line, List.mem_cons_self _ _, product, hfind, hpid, hq, rfl⟩
        · obtain ⟨ho, l, hl, p, hfp, h1, h2, h3⟩ := hall it hit
          exact ⟨ho, l, List.mem_cons_of_mem _ hl, p, hfp, h1, h2, h3⟩

/-- update_stock adjusts the stock by exactly the signed change. -/
theorem update_stock_quantity (inv : Inventory) (c : Int) (now : Nat) :
    (inv.update_stock c now).quantityInStock = inv.quantityInStock + c := by
  simp only [Inventory.update_stock]
  split <;> rfl

/-- update_stock never changes the product key. -/
theorem update_stock_productId (inv : Inventory) (c : Int) (now : Nat) :
    (inv.update_stock c now).productId = inv.productId := by
  simp only [Inventory.update_stock]
  split <;> rfl

/-- A successful item loop keeps every inventory record non-negative:
each decrement is guarded by check_availability on the same first-match
record. -/
theorem processOrderItems_nonneg (products : List Product) (oid now : Nat)
    (lines : List OrderItemReq) :
    ∀ invs acc total nid invs' items' total' nid',
    processOrderItems products oid now lines invs acc total nid =
        .ok (invs', items', total', nid') →
    (∀ i ∈ invs, 0 ≤ i.quantityInStock) →
    ∀ i ∈ invs', 0 ≤ i.quantityInStock := by
  induction lines with
  | nil =>
    intro invs acc total nid invs' items' total' nid' h hnn
    simp only [processOrderItems, Except.ok.injEq, Prod.mk.injEq] at h
    exact h.1 ▸ hnn
  | cons line rest ih =>
    intro invs acc total nid invs' items' total' nid' h hnn
    rcases hpid : line.productId with _ | pid
    · simp [processOrderItems, hpid] at h
    rcases hq : line.quantity with _ | qty
    · simp [processOrderItems, hpid, hq] at h
    rcases hfind : products.find? (fun p => p.productId == pid) with _ | product
    · simp [processOrderItems, hpid, hq, hfind] at h
    rcases hav : product.isAvailable with _ | _
    · simp [processOrderItems, hpid, hq, hfind, hav] at h
    rcases hinv : invs.find? (fun i => i.productId == pid) with _ | inv
    · simp only [processOrderItems, hpid, hq, hfind, hav, hinv, Bool.true_eq_false,
        if_false] at h
      exact ih _ _ _ _ _ _ _ _ h hnn
    · rcases hchk : inv.check_availability qty with _ | _
      · simp [processOrderItems, hpid, hq, hfind, hav, hinv, hchk] at h
      · simp only [processOrderItems, hpid, hq, hfind, hav, hinv, hchk, Bool.true_eq_false,
          if_false] at h
        refine ih _ _ _ _ _ _ _ _ h ?_
        intro i hi
        rcases mem_updateFirst _ _ _ _ hi with hi | ⟨a, ha, hf⟩
        · exact hnn i hi
        · rw [hinv] at ha
          injection ha with ha
          subst ha
          subst hf
          have hge : qty ≤ inv.quantityInStock := by
            simpa [Inventory.check_availability, ge_iff_le] using hchk
          rw [update_stock_quantity]
          omega

/-- The item loop fails whenever any line names a product id that does
not resolve in the catalog. -/
theorem processOrderItems_unresolvable (products : List Product) (oid now : Nat)
    (pid : Nat) (hbad : products.find? (fun x => x.productId == pid) = none)
    (pre post : List OrderItemReq) (q : Option Int) (up : Option Int) :
    ∀ invs acc total nid, ∃ e,
    processOrderItems products oid now
      (pre ++ ⟨some pid, q, up⟩ :: post) invs acc total nid = .error e := by
  induction pre with
  | nil =>
    intro invs acc total nid
    rcases q with _ | qty
    · exact ⟨.itemMissingQuantity 0, by simp [processOrderItems]⟩
    · exact ⟨.productNotFound pid, by simp [processOrderItems, hbad]⟩
  | cons line pre ih =>
    intro invs acc total nid
    rcases hpid : line.productId with _ | pid0
    · exact ⟨.itemMissingProductId 0, by simp [processOrderItems, hpid]⟩
    rcases hq : line.quantity with _ | qty0
    · exact ⟨.itemMissingQuantity 0, by simp [processOrderItems, hpid, hq]⟩
    rcases hfind : products.find? (fun p => p.productId == pid0) with _ | product
    · exact ⟨.productNotFound pid0, by simp [processOrderItems, hpid, hq, hfind]⟩
    rcases hav : product.isAvailable with _ | _
    · exact ⟨.productUnavailable pid0, by simp [processOrderItems, hpid, hq, hfind, hav]⟩
    rcases hinv : invs.find? (fun i => i.productId == pid0) with _ | inv
    · obtain ⟨e, he⟩ := ih _ _ _ _
      exact ⟨e, by simp only [List.cons_append, processOrderItems, hpid, hq, hfind, hav,
        hinv, Bool.true_eq_false, if_false]; exact he⟩
    · rcases hchk : inv.check_availability qty0 with _ | _
      · exact ⟨.insufficientStock pid0,
          by simp [processOrderItems, hpid, hq, hfind, hav, hinv, hchk]⟩
      · obtain ⟨e, he⟩ := ih _ _ _ _
        exact ⟨e, by simp only [List.cons_append, processOrderItems, hpid, hq, hfind, hav,
          hinv, hchk, Bool.true_eq_false, if_false]; exact he⟩

/-- Stock accounting of the cancellation restore loop: for every product
key, the resulting stock is the old stock plus the summed quantities of
the released lines naming that product, and a product without an
inventory record stays without one. -/
theorem releaseItems_stock (now : Nat) (items : List OrderItem) :
    ∀ invs pid,
    ((releaseItems now items invs).find? (fun i => i.productId == pid)).map
        Inventory.quantityInStock =
      (invs.find? (fun i => i.productId == pid)).map fun i =>
        i.quantityInStock +
          ((items.filter (fun it => it.productId == pid)).map OrderItem.quantity).sum := by
  induction items with
  | nil =>
    intro invs pid
    simp only [releaseItems, List.foldl_nil, List.filter_nil, List.map_nil, List.sum_nil]
    cases invs.find? (fun i => i.productId == pid) <;> simp
  | cons it rest ih =>
    intro invs pid
    have hstep : releaseItems now (it :: rest) invs =
        releaseItems now rest (updateFirst (fun i => i.productId == it.productId)
          (fun i => i.update_stock it.quantity now) invs) := by
      simp [releaseItems]
    rw [hstep, ih]
    by_cases hpid : (it.productId == pid) = true
    · have hpe : it.productId = pid := by simpa using hpid
      subst hpe
      rw [find?_updateFirst_self _ _ _
        (fun a => by simp [update_stock_productId])]
      cases hf : invs.find? (fun i => i.productId == it.productId) <;>
        simp [hf, update_stock_quantity, List.filter_cons, hpid]
      omega
    · rw [find?_updateFirst_disjoint _ _ _ _
        (fun a ha => ?_) (fun a => by simp [update_stock_productId])]
      · have : (it.productId == pid) = false := by simpa using hpid
        simp [List.filter_cons, this]
      · have h1 : a.productId = it.productId := by simpa using ha
        simp [h1]
        simpa using hpid

/-- The restore loop keeps stocks non-negative when every released line
quantity is non-negative. -/
theorem releaseItems_nonneg (now : Nat) (items : List OrderItem) :
    ∀ invs, (∀ i ∈ invs, 0 ≤ i.quantityInStock) → (∀ it ∈ items, 0 ≤ it.quantity) →
    ∀ i ∈ releaseItems now items invs, 0 ≤ i.quantityInStock := by
  induction items with
  | nil =>
    intro invs hnn _ i hi
    exact hnn i (by simpa [releaseItems] using hi)
  | cons it rest ih =>
    intro invs hnn hq i hi
    have hstep : releaseItems now (it :: rest) invs =
        releaseItems now rest (updateFirst (fun i => i.productId == it.productId)
          (fun i => i.update_stock it.quantity now) invs) := by
      simp [releaseItems]
    rw [hstep] at hi
    refine ih _ ?_ (fun x hx => hq x (List.mem_cons_of_mem _ hx)) i hi
    intro j hj
    rcases mem_updateFirst _ _ _ _ hj with hj | ⟨a, ha, hf⟩
    · exact hnn j hj
    · subst hf
      rw [update_stock_quantity]
      have h1 := hnn a (List.mem_of_find?_eq_some ha)
      have h2 := hq it (List.mem_cons_self _ _)
      omega

/-- Success equation of the order-routes cancel handler. -/
theorem cancel_order_eq_ok (db : DB) (cid oid now : Nat) (o : Order)
    (ho : db.getOrder oid = some o) (hc : o.customerId = cid)
    (h1 : o.status ≠ "Delivered") (h2 : o.status ≠ "Cancelled") :
    cancel_order db cid oid now =
      (⟨db.products,
        releaseItems now (db.itemsOfOrder oid) db.inventories,
        updateFirst (fun x => x.orderId == oid)
          (fun x => { x with status := "Cancelled" }) db.orders,
        db.order_items, db.deliveries, db.payments,
        db.nextOrderId, db.nextOrderItemId⟩, .ok ()) := by
  simp [cancel_order, ho, hc, h1, h2]

/-- Rejection equation of the order-routes cancel handler for the
Delivered and Cancelled statuses. -/
theorem cancel_order_eq_reject (db : DB) (cid oid now : Nat) (o : Order)
    (ho : db.getOrder oid = some o) (hc : o.customerId = cid)
    (hst : o.status = "Delivered" ∨ o.status = "Cancelled") :
    cancel_order db cid oid now = (db, .error (.cannotCancel o.status)) := by
  rcases hst with hst | hst <;> simp [cancel_order, ho, hc, hst]

/-- Inversion of a successful order-routes cancel: the order resolved,
belonged to the caller, was neither Delivered nor Cancelled, and the
committed store applies the status overwrite and the restore loop. -/
theorem cancel_order_ok_spec (db : DB) (cid oid now : Nat)
    (h : (cancel_order db cid oid now).2 = .ok ()) :
    ∃ o, db.getOrder oid = some o ∧ o.customerId = cid ∧
      o.status ≠ "Delivered" ∧ o.status ≠ "Cancelled" ∧
      (cancel_order db cid oid now).1.orders =
        updateFirst (fun x => x.orderId == oid)
          (fun x => { x with status := "Cancelled" }) db.orders ∧
      (cancel_order db cid oid now).1.inventories =
        releaseItems now (db.itemsOfOrder oid) db.inventories := by
  rcases ho : db.getOrder oid with _ | o
  · simp [cancel_order, ho] at h
  by_cases hc : o.customerId = cid
  · by_cases h1 : o.status = "Delivered"
    · rw [cancel_order_eq_reject db cid oid now o ho hc (Or.inl h1)] at h; cases h
    · by_cases h2 : o.status = "Cancelled"
      · rw [cancel_order_eq_reject db cid oid now o ho hc (Or.inr h2)] at h; cases h
      · rw [cancel_order_eq_ok db cid oid now o ho hc h1 h2]
        exact ⟨o, rfl, hc, h1, h2, rfl, rfl⟩
  · simp [cancel_order, ho, hc] at h

/-- Success equation of the customer-routes cancel handler: only the
status changes, no inventory is touched. -/
theorem customer_cancel_eq_ok (db : DB) (cid oid : Nat) (o : Order)
    (ho : db.orders.find? (fun x => x.orderId == oid && x.customerId == cid) = some o)
    (hst : o.status = "Pending" ∨ o.status = "Confirmed") :
    customer_cancel_order db cid oid =
      (⟨db.products, db.inventories,
        updateFirst (fun x => x.orderId == oid && x.customerId == cid)
          (fun x => { x with status := "Cancelled" }) db.orders,
        db.order_items, db.deliveries, db.payments,
        db.nextOrderId, db.nextOrderItemId⟩, .ok ()) := by
  rcases hst with hst | hst <;> simp [customer_cancel_order, ho, hst]

/-- Rejection equation of the customer-routes cancel handler for every
status outside Pending and Confirmed. -/
theorem customer_cancel_eq_reject (db : DB) (cid oid : Nat) (o : Order)
    (ho : db.orders.find? (fun x => x.orderId == oid && x.customerId == cid) = some o)
    (h1 : o.status ≠ "Pending") (h2 : o.status ≠ "Confirmed") :
    customer_cancel_order db cid oid = (db, .error (.cannotCancel o.status)) := by
  simp [customer_cancel_order, ho, h1, h2]

/-- Rejection equation of create_payment when a payment is attached. -/
theorem create_payment_eq_exists (db : DB) (cid oid : Nat) (req : PaymentReq)
    (txid : String) (o : Order) (p : Payment)
    (ho : db.getOrder oid = some o) (hc : o.customerId = cid)
    (hp : db.getPayment oid = some p) :
    create_payment db cid oid req txid = (db, .error .paymentExists) := by
  simp [create_payment, ho, hc, hp]

/-- Success equation of create_payment on a payment-free order with a
supplied method: record the payment over the order total and confirm the
order. -/
theorem create_payment_eq_ok (db : DB) (cid oid : Nat) (req : PaymentReq)
    (txid m : String) (o : Order)
    (ho : db.getOrder oid = some o) (hc : o.customerId = cid)
    (hnp : db.getPayment oid = none) (hm : req.paymentMethod = some m) :
    create_payment db cid oid req txid =
      (⟨db.products, db.inventories,
        updateFirst (fun x => x.orderId == oid)
          (fun x => { x with status := "Confirmed" }) db.orders,
        db.order_items, db.deliveries,
        db.payments ++ [⟨o.orderId, o.totalAmount, m, "Successful", txid⟩],
        db.nextOrderId, db.nextOrderItemId⟩, .ok ()) := by
  simp [create_payment, ho, hc, hnp, hm]

/-- Success equation of the seller status overwrite for an allow-listed
status. -/
theorem update_order_status_eq_ok (db : DB) (sid oid : Nat) (s : String) (o : Order)
    (ho : db.orders.find? (fun x => x.orderId == oid && x.sellerId == sid) = some o)
    (hs : s ∈ valid_statuses) :
    update_order_status db sid oid (some s) =
      (⟨db.products, db.inventories,
        updateFirst (fun x => x.orderId == oid && x.sellerId == sid)
          (fun x => { x with status := s }) db.orders,
        db.order_items, db.deliveries, db.payments,
        db.nextOrderId, db.nextOrderItemId⟩, .ok ()) := by
  simp [update_order_status, ho, hs]

/-- Rejection equation of the seller status overwrite outside the
allow-list. -/
theorem update_order_status_eq_reject (db : DB) (sid oid : Nat) (s : String) (o : Order)
    (ho : db.orders.find? (fun x => x.orderId == oid && x.sellerId == sid) = some o)
    (hs : s ∉ valid_statuses) :
    update_order_status db sid oid (some s) = (db, .error .invalidStatus) := by
  simp [update_order_status, ho, hs]

/-- A missing status key is rejected unchanged. -/
theorem update_order_status_eq_none (db : DB) (sid oid : Nat) (o : Order)
    (ho : db.orders.find? (fun x => x.orderId == oid && x.sellerId == sid) = some o) :
    update_order_status db sid oid none = (db, .error .invalidStatus) := by
  simp [update_order_status, ho]

/-- The clamped stock adjustment of the seller restock. -/
theorem restockAdjust_quantity (qc : Int) (now : Nat) (inv : Inventory) :
    (restockAdjust qc now inv).quantityInStock =
      if inv.quantityInStock + qc < 0 then 0 else inv.quantityInStock + qc := by
  simp only [restockAdjust]
  split <;> split <;> rfl

/-- Seller restock keeps every inventory record non-negative. -/
theorem update_inventory_nonneg (db : DB) (sid pid : Nat) (qc : Option Int) (now : Nat)
    (hnn : ∀ i ∈ db.inventories, 0 ≤ i.quantityInStock) :
    ∀ i ∈ (update_inventory db sid pid qc now).1.inventories, 0 ≤ i.quantityInStock := by
  rcases hp : db.products.find? (fun p => p.productId == pid && p.sellerId == sid)
    with _ | product
  · have heq : (update_inventory db sid pid qc now).1 = db := by
      simp [update_inventory, hp]
    rw [heq]; exact hnn
  rcases qc with _ | c
  · have heq : (update_inventory db sid pid none now).1 = db := by
      simp [update_inventory, hp]
    rw [heq]; exact hnn
  by_cases hz : c = 0
  · have heq : (update_inventory db sid pid (some c) now).1 = db := by
      simp [update_inventory, hp, hz]
    rw [heq]; exact hnn
  rcases hi : db.getInventory pid with _ | inv
  · have heq : (update_inventory db sid pid (some c) now).1.inventories =
        db.inventories ++ [⟨pid, max 0 c, 10, if c > 0 then some now else none, now⟩] := by
      simp [update_inventory, hp, hz, hi]
    rw [heq]
    intro i hmem
    rcases List.mem_append.mp hmem with hm | hm
    · exact hnn i hm
    · simp only [List.mem_singleton] at hm
      subst hm
      simp [le_max_iff]
  · have heq : (update_inventory db sid pid (some c) now).1.inventories =
        updateFirst (fun i => i.productId == pid) (restockAdjust c now) db.inventories := by
      simp [update_inventory, hp, hz, hi]
    rw [heq]
    intro i hmem
    rcases mem_updateFirst _ _ _ _ hmem with hm | ⟨a, ha, hf⟩
    · exact hnn i hm
    · subst hf
      rw [restockAdjust_quantity]
      have := hnn a (List.mem_of_find?_eq_some ha)
      split <;> omega

/-- create_order keeps every inventory record non-negative. -/
theorem create_order_nonneg (db : DB) (cid : Nat) (req : CreateOrderReq) (now : Nat)
    (hnn : ∀ i ∈ db.inventories, 0 ≤ i.quantityInStock) :
    ∀ i ∈ (create_order db cid req now).1.inventories, 0 ≤ i.quantityInStock := by
  rcases create_order_fst_or_ok db cid req now with h | h
  · rw [h]; exact hnn
  · obtain ⟨-, first, rest, invs', newItems, total, nid', fp, hi, hv, hp, hproc,
      hinvs, -, -, -⟩ := create_order_ok_spec db cid req now _ h
    rw [hinvs]
    exact processOrderItems_nonneg _ _ _ _ _ _ _ _ _ _ _ _ hproc hnn

/-- Prepending a list with no match keeps the first match of the rest. -/
theorem find?_append_of_none {α : Type} (p : α → Bool) (l1 l2 : List α)
    (h : l1.find? p = none) : (l1 ++ l2).find? p = l2.find? p := by
  rw [List.find?_append, h, Option.none_or]

/-- Structure validation fails on any list containing a line missing its
productId or quantity key. -/
theorem validateItems_bad_line (line : OrderItemReq)
    (hbad : line.productId.isNone = true ∨ line.quantity.isNone = true)
    (pre post : List OrderItemReq) :
    ∀ idx, ∃ e, validateItems (pre ++ line :: post) idx = some e := by
  induction pre with
  | nil =>
    intro idx
    by_cases h1 : line.productId.isNone = true
    · exact ⟨.itemMissingProductId idx, by simp [validateItems, h1]⟩
    · have h2 : line.quantity.isNone = true := hbad.resolve_left h1
      exact ⟨.itemMissingQuantity idx, by simp [validateItems, h1, h2]⟩
  | cons a pre ih =>
    intro idx
    by_cases h1 : a.productId.isNone = true
    · exact ⟨.itemMissingProductId idx, by simp [validateItems, h1]⟩
    · by_cases h2 : a.quantity.isNone = true
      · exact ⟨.itemMissingQuantity idx, by simp [validateItems, h1, h2]⟩
      · obtain ⟨e, he⟩ := ih (idx + 1)
        exact ⟨e, by simp [validateItems, h1, h2, he]⟩

/-- Every order-routes cancel call either leaves the store untouched or
succeeds. -/
theorem cancel_order_fst_or_ok (db : DB) (cid oid now : Nat) :
    (cancel_order db cid oid now).1 = db ∨ (cancel_order db cid oid now).2 = .ok () := by
  unfold cancel_order
  rcases ho : db.getOrder oid with _ | o
  · simp
  · by_cases hc : o.customerId = cid
    · by_cases hst : (o.status == "Delivered" || o.status == "Cancelled") = true
      · simp [hc, hst]
      · simp [hc, hst]
    · simp [hc]

/-- A request whose items fail structure validation is rejected
unchanged, in terms of the raw items list. -/
theorem create_order_bad_items_error (db : DB) (cid now : Nat) (req : CreateOrderReq)
    (items : List OrderItemReq) (hi : req.items = some items) (e : ApiError)
    (hv : validateItems items 0 = some e) :
    create_order db cid req now = (db, .error e) := by
  rcases items with _ | ⟨first, rest⟩
  · simp [validateItems] at hv
  · exact create_order_validate_eq db cid req now first rest e hi hv

/-! Claim theorems. -/

/-- C1: if create_order fails for any reason while processing a request
(product not found, product unavailable, insufficient stock, or any other
rejection), then no Order, OrderItem, Delivery or inventory mutation from
any earlier line persists: the store after the failed call equals the
store before it. -/
theorem C1_create_order_atomic (db : DB) (cid : Nat) (req : CreateOrderReq) (now : Nat)
    (e : ApiError) (h : (create_order db cid req now).2 = .error e) :
    (create_order db cid req now).1 = db := by
  rcases create_order_fst_or_ok db cid req now with h1 | h1
  · exact h1
  · rw [h1] at h; cases h

/-- C1 witness: ordering six units against a stock of five fails with
insufficient stock and leaves the concrete store untouched. -/
theorem C1_witness :
    (create_order dbA 7 (pickupReq 6) 0).2 = .error (.insufficientStock 1) ∧
    (create_order dbA 7 (pickupReq 6) 0).1 = dbA :=
  ⟨by decide,
   C1_create_order_atomic dbA 7 (pickupReq 6) 0 (.insufficientStock 1) (by decide)⟩

/-- C3 counterexample: the customer-routes cancel endpoint (one of the
two cancel implementations the claim covers) successfully cancels a
Pending order holding a line of quantity two, yet the product's stock
stays at five instead of rising to seven: cancellation does not increase
the stock by the line quantity. -/
theorem C3_counterexample :
    (dbC.getInventory 1).map Inventory.quantityInStock = some 5 ∧
    (dbC.itemsOfOrder 1).map OrderItem.quantity = [2] ∧
    (dbC.getOrder 1).map Order.status = some "Pending" ∧
    (customer_cancel_order dbC 7 1).2 = .ok () ∧
    ((customer_cancel_order dbC 7 1).1.getOrder 1).map Order.status = some "Cancelled" ∧
    ((customer_cancel_order dbC 7 1).1.getInventory 1).map Inventory.quantityInStock =
      some 5 := by
  decide

/-- C3 (amended): a successful order-routes cancel sets the status to
Cancelled and increases each product's stock by exactly the summed
quantities of the order's lines naming it, whenever the product has an
inventory record (a product without one stays without one), regardless
of any inventory mutations between creation and cancellation; the
customer-routes cancel endpoint never touches inventory. -/
theorem C3_cancel_restores_stock (db : DB) (cid oid now : Nat)
    (h : (cancel_order db cid oid now).2 = .ok ()) :
    (((cancel_order db cid oid now).1).getOrder oid).map Order.status = some "Cancelled" ∧
    (∀ pid, (((cancel_order db cid oid now).1).getInventory pid).map
        Inventory.quantityInStock =
      (db.getInventory pid).map fun i => i.quantityInStock +
        (((db.itemsOfOrder oid).filter (fun it => it.productId == pid)).map
          OrderItem.quantity).sum) ∧
    (customer_cancel_order db cid oid).1.inventories = db.inventories := by
  obtain ⟨o, ho, hc, h1, h2, hords, hinvs⟩ := cancel_order_ok_spec db cid oid now h
  refine ⟨?_, ?_, ?_⟩
  · show ((cancel_order db cid oid now).1.orders.find?
      (fun x => x.orderId == oid)).map Order.status = some "Cancelled"
    rw [hords, find?_updateFirst_self (fun x => x.orderId == oid)
      (fun x => { x with status := "Cancelled" }) db.orders (fun a => rfl)]
    have ho2 : db.orders.find? (fun x => x.orderId == oid) = some o := ho
    rw [ho2]
    rfl
  · intro pid
    show ((cancel_order db cid oid now).1.inventories.find?
        (fun i => i.productId == pid)).map Inventory.quantityInStock = _
    rw [hinvs, releaseItems_stock]
    rfl
  · rcases hfind : db.orders.find?
      (fun x => x.orderId == oid && x.customerId == cid) with _ | o2
    · simp [customer_cancel_order, hfind]
    · by_cases hst : o2.status = "Pending" ∨ o2.status = "Confirmed"
      · rw [customer_cancel_eq_ok db cid oid o2 hfind hst]
      · push_neg at hst
        rw [customer_cancel_eq_reject db cid oid o2 hfind hst.1 hst.2]

/-- C3 witness: cancelling the concrete Pending order through the
order-routes endpoint satisfies the amended statement. -/
theorem C3_witness :
    (cancel_order dbC 7 1 0).2 = .ok () ∧
    ((((cancel_order dbC 7 1 0).1).getOrder 1).map Order.status = some "Cancelled" ∧
     (∀ pid, (((cancel_order dbC 7 1 0).1).getInventory pid).map
         Inventory.quantityInStock =
       (dbC.getInventory pid).map fun i => i.quantityInStock +
         (((dbC.itemsOfOrder 1).filter (fun it => it.productId == pid)).map
           OrderItem.quantity).sum) ∧
     (customer_cancel_order dbC 7 1).1.inventories = dbC.inventories) :=
  ⟨by decide, C3_cancel_restores_stock dbC 7 1 0 (by decide)⟩

/-- C4 counterexample: an order in status Preparing — neither Pending
nor Confirmed — is successfully cancelled by the order-routes cancel
endpoint and its status mutates to Cancelled, where the claim demands an
invalid-transition failure with no mutation. -/
theorem C4_counterexample :
    (dbD.getOrder 1).map Order.status = some "Preparing" ∧
    (cancel_order dbD 7 1 0).2 = .ok () ∧
    ((cancel_order dbD 7 1 0).1.getOrder 1).map Order.status = some "Cancelled" := by
  decide

/-- C4 (amended): the customer-routes cancel succeeds exactly when the
status is Pending or Confirmed and otherwise fails with an
invalid-transition error leaving the store unchanged; the order-routes
cancel instead fails (unchanged) exactly for Delivered and Cancelled and
succeeds from every other status, including Preparing, Ready and
Completed. -/
theorem C4_cancel_guards (db : DB) (cid oid now : Nat) (o : Order)
    (hfind : db.orders.find? (fun x => x.orderId == oid && x.customerId == cid) = some o)
    (hget : db.getOrder oid = some o) (hc : o.customerId = cid) :
    ((customer_cancel_order db cid oid).2 = .ok () ↔
      (o.status = "Pending" ∨ o.status = "Confirmed")) ∧
    ((cancel_order db cid oid now).2 = .ok () ↔
      ¬(o.status = "Delivered" ∨ o.status = "Cancelled")) ∧
    ((customer_cancel_order db cid oid).2 = .ok () ∨
      customer_cancel_order db cid oid = (db, .error (.cannotCancel o.status))) ∧
    ((cancel_order db cid oid now).2 = .ok () ∨
      cancel_order db cid oid now = (db, .error (.cannotCancel o.status))) := by
  refine ⟨⟨fun hok => ?_, fun hst => ?_⟩, ⟨fun hok hst => ?_, fun hst => ?_⟩, ?_, ?_⟩
  · by_contra hst
    push_neg at hst
    rw [customer_cancel_eq_reject db cid oid o hfind hst.1 hst.2] at hok
    cases hok
  · rw [customer_cancel_eq_ok db cid oid o hfind hst]
  · rw [cancel_order_eq_reject db cid oid now o hget hc hst] at hok
    cases hok
  · push_neg at hst
    rw [cancel_order_eq_ok db cid oid now o hget hc hst.1 hst.2]
  · by_cases hst : o.status = "Pending" ∨ o.status = "Confirmed"
    · exact Or.inl (by rw [customer_cancel_eq_ok db cid oid o hfind hst])
    · push_neg at hst
      exact Or.inr (customer_cancel_eq_reject db cid oid o hfind hst.1 hst.2)
  · by_cases hst : o.status = "Delivered" ∨ o.status = "Cancelled"
    · exact Or.inr (cancel_order_eq_reject db cid oid now o hget hc hst)
    · push_neg at hst
      exact Or.inl (by rw [cancel_order_eq_ok db cid oid now o hget hc hst.1 hst.2])

/-- C4 witness: the guard characterization instantiated on the concrete
Preparing order: the customer route rejects it, the order route cancels
it. -/
theorem C4_witness :
    ((customer_cancel_order dbD 7 1).2 = .ok () ↔
      (({ exOrder with status := "Preparing" } : Order).status = "Pending" ∨
        ({ exOrder with status := "Preparing" } : Order).status = "Confirmed")) ∧
    ((cancel_order dbD 7 1 0).2 = .ok () ↔
      ¬(({ exOrder with status := "Preparing" } : Order).status = "Delivered" ∨
        ({ exOrder with status := "Preparing" } : Order).status = "Cancelled")) ∧
    ((customer_cancel_order dbD 7 1).2 = .ok () ∨
      customer_cancel_order dbD 7 1 =
        (dbD, .error (.cannotCancel ({ exOrder with status := "Preparing" } : Order).status))) ∧
    ((cancel_order dbD 7 1 0).2 = .ok () ∨
      cancel_order dbD 7 1 0 =
        (dbD, .error (.cannotCancel ({ exOrder with status := "Preparing" } : Order).status))) :=
  C4_cancel_guards dbD 7 1 0 { exOrder with status := "Preparing" }
    (by decide) (by decide) (by decide)

/-- C2: for every successful create_order call the persisted order's
totalAmount equals the sum of its line items' subtotals, and each item's
subtotal equals its unit price times its quantity, the unit price being
the caller-supplied override when present and the catalog price
otherwise. The freshness hypotheses state that the auto-increment order
id is unused, as the database guarantees. -/
theorem C2_total_consistent (db : DB) (cid : Nat) (req : CreateOrderReq) (now oid : Nat)
    (hfo : ∀ o ∈ db.orders, o.orderId ≠ db.nextOrderId)
    (hfi : ∀ it ∈ db.order_items, it.orderId ≠ db.nextOrderId)
    (h : (create_order db cid req now).2 = .ok oid) :
    ∃ o lines, (create_order db cid req now).1.getOrder oid = some o ∧
      req.items = some lines ∧
      o.totalAmount =
        (((create_order db cid req now).1.itemsOfOrder oid).map OrderItem.subtotal).sum ∧
      ∀ it ∈ (create_order db cid req now).1.itemsOfOrder oid,
        ∃ line ∈ lines, ∃ p, db.getProduct it.productId = some p ∧
          line.productId = some it.productId ∧ line.quantity = some it.quantity ∧
          it.subtotal = line.unitPrice.getD p.unitPrice * it.quantity := by
  obtain ⟨rfl, first, rest, invs', newItems, total, nid', fp, hi, hv, hp, hproc,
    hinvs, hitems, hpay, hords⟩ := create_order_ok_spec db cid req now oid h
  obtain ⟨nitems, hacc, htot, hall⟩ :=
    processOrderItems_ok_spec db.products db.nextOrderId now _ _ _ _ _ _ _ _ _ hproc
  rw [List.nil_append] at hacc
  rw [← hacc] at htot hall
  have horder : (create_order db cid req now).1.getOrder db.nextOrderId =
      some { orderId := db.nextOrderId, customerId := cid, sellerId := fp.sellerId,
             status := "Pending", type := req.type.getD "Delivery", totalAmount := total,
             deliveryAddress := req.deliveryAddress, notes := req.notes } := by
    show ((create_order db cid req now).1.orders.find?
      (fun o => o.orderId == db.nextOrderId)) = _
    rw [hords, find?_append_of_none _ _ _ (List.find?_eq_none.mpr
      (fun o ho => by simpa using hfo o ho))]
    simp
  have hfilter : (create_order db cid req now).1.itemsOfOrder db.nextOrderId = newItems := by
    show ((create_order db cid req now).1.order_items.filter
      (fun it => it.orderId == db.nextOrderId)) = newItems
    rw [hitems, List.filter_append]
    rw [List.filter_eq_nil_iff.mpr (fun it hit => by simpa using hfi it hit),
      List.nil_append]
    refine List.filter_eq_self.mpr ?_
    intro it hit
    simp [(hall it hit).1]
  refine ⟨_, first :: rest, horder, hi, ?_, ?_⟩
  · rw [hfilter]
    simpa using htot
  · rw [hfilter]
    intro it hit
    obtain ⟨-, line, hline, p, hfp, hl1, hl2, hl3⟩ := hall it hit
    exact ⟨line, hline, p, hfp, hl1, hl2, hl3⟩

/-- C2 witness: ordering two units of the ten-cost product yields an
order whose total is the sum of its single subtotal of twenty. -/
theorem C2_witness :
    (∀ o ∈ dbA.orders, o.orderId ≠ dbA.nextOrderId) ∧
    (∀ it ∈ dbA.order_items, it.orderId ≠ dbA.nextOrderId) ∧
    (create_order dbA 7 (pickupReq 2) 0).2 = .ok 1 ∧
    (∃ o lines, (create_order dbA 7 (pickupReq 2) 0).1.getOrder 1 = some o ∧
      (pickupReq 2).items = some lines ∧
      o.totalAmount =
        (((create_order dbA 7 (pickupReq 2) 0).1.itemsOfOrder 1).map
          OrderItem.subtotal).sum ∧
      ∀ it ∈ (create_order dbA 7 (pickupReq 2) 0).1.itemsOfOrder 1,
        ∃ line ∈ lines, ∃ p, dbA.getProduct it.productId = some p ∧
          line.productId = some it.productId ∧ line.quantity = some it.quantity ∧
          it.subtotal = line.unitPrice.getD p.unitPrice * it.quantity) :=
  ⟨by decide, by decide, by decide,
   C2_total_consistent dbA 7 (pickupReq 2) 0 1 (by decide) (by decide) (by decide)⟩

/-- C5: recordPayment on an order that already has a payment fails with
the payment-already-exists error and leaves the store unchanged; on an
order without one (and a supplied method) it creates exactly one Payment
in status Successful and sets the order's status to Confirmed. -/
theorem C5_record_payment (db : DB) (cid oid : Nat) (req : PaymentReq) (txid m : String)
    (o : Order) (ho : db.getOrder oid = some o) (hc : o.customerId = cid)
    (hm : req.paymentMethod = some m) :
    (∃ p, db.getPayment oid = some p ∧
      create_payment db cid oid req txid = (db, .error .paymentExists)) ∨
    (db.getPayment oid = none ∧
      (create_payment db cid oid req txid).2 = .ok () ∧
      (∃ p, ((create_payment db cid oid req txid).1).getPayment oid = some p ∧
        p.status = "Successful" ∧ p.paymentMethod = m ∧ p.amount = o.totalAmount) ∧
      (((create_payment db cid oid req txid).1).payments.filter
        (fun q => q.orderId == oid)).length = 1 ∧
      (((create_payment db cid oid req txid).1).getOrder oid).map Order.status =
        some "Confirmed") := by
  have hoid : o.orderId = oid := by
    have h0 : db.orders.find? (fun x => x.orderId == oid) = some o := ho
    simpa using List.find?_some h0
  rcases hp : db.getPayment oid with _ | p
  · right
    have hp0 : db.payments.find? (fun q => q.orderId == oid) = none := hp
    rw [create_payment_eq_ok db cid oid req txid m o ho hc hp hm]
    refine ⟨rfl, rfl,
      ⟨Payment.mk o.orderId o.totalAmount m "Successful" txid, ?_, rfl, rfl, rfl⟩, ?_, ?_⟩
    · show ((db.payments ++ [Payment.mk o.orderId o.totalAmount m "Successful" txid]).find?
        (fun q => q.orderId == oid)) = _
      rw [find?_append_of_none _ _ _ hp0]
      simp [hoid]
    · show ((db.payments ++ [Payment.mk o.orderId o.totalAmount m "Successful" txid]).filter
        (fun q => q.orderId == oid)).length = 1
      rw [List.filter_append,
        List.filter_eq_nil_iff.mpr (List.find?_eq_none.mp hp0), List.nil_append]
      simp [hoid]
    · show ((updateFirst (fun x => x.orderId == oid)
        (fun x => { x with status := "Confirmed" }) db.orders).find?
          (fun x => x.orderId == oid)).map Order.status = some "Confirmed"
      rw [find?_updateFirst_self (fun x => x.orderId == oid)
        (fun x => { x with status := "Confirmed" }) db.orders (fun a => rfl)]
      have h0 : db.orders.find? (fun x => x.orderId == oid) = some o := ho
      rw [h0]
      rfl
  · exact Or.inl ⟨p, rfl, create_payment_eq_exists db cid oid req txid o p ho hc hp⟩

/-- C5 witness: recording a Cash payment on the payment-free concrete
order takes the success branch. -/
theorem C5_witness :
    (∃ p, dbC.getPayment 1 = some p ∧
      create_payment dbC 7 1 ⟨some "Cash", none⟩ "tx" = (dbC, .error .paymentExists)) ∨
    (dbC.getPayment 1 = none ∧
      (create_payment dbC 7 1 ⟨some "Cash", none⟩ "tx").2 = .ok () ∧
      (∃ p, ((create_payment dbC 7 1 ⟨some "Cash", none⟩ "tx").1).getPayment 1 = some p ∧
        p.status = "Successful" ∧ p.paymentMethod = "Cash" ∧
        p.amount = exOrder.totalAmount) ∧
      (((create_payment dbC 7 1 ⟨some "Cash", none⟩ "tx").1).payments.filter
        (fun q => q.orderId == 1)).length = 1 ∧
      (((create_payment dbC 7 1 ⟨some "Cash", none⟩ "tx").1).getOrder 1).map Order.status =
        some "Confirmed") :=
  C5_record_payment dbC 7 1 ⟨some "Cash", none⟩ "tx" "Cash" exOrder
    (by decide) (by decide) (by decide)

/-- C10: every successful recordPayment stores a payment whose amount is
the order's totalAmount at the time of recording, and the handler's
result does not depend on any caller-supplied amount field. -/
theorem C10_payment_amount (db : DB) (cid oid : Nat) (req : PaymentReq) (txid m : String)
    (o : Order) (ho : db.getOrder oid = some o) (hc : o.customerId = cid)
    (hm : req.paymentMethod = some m) (hnp : db.getPayment oid = none) :
    (create_payment db cid oid req txid).2 = .ok () ∧
    ((create_payment db cid oid req txid).1.getPayment oid).map Payment.amount =
      some o.totalAmount ∧
    (∀ a : Option Int, create_payment db cid oid ⟨req.paymentMethod, a⟩ txid =
      create_payment db cid oid req txid) := by
  have hp0 : db.payments.find? (fun q => q.orderId == oid) = none := hnp
  have hoid : o.orderId = oid := by
    have h0 : db.orders.find? (fun x => x.orderId == oid) = some o := ho
    simpa using List.find?_some h0
  rw [create_payment_eq_ok db cid oid req txid m o ho hc hnp hm]
  refine ⟨rfl, ?_, ?_⟩
  · show (((db.payments ++ [Payment.mk o.orderId o.totalAmount m "Successful" txid]).find?
      (fun q => q.orderId == oid)).map Payment.amount) = some o.totalAmount
    rw [find?_append_of_none _ _ _ hp0]
    simp [hoid]
  · intro a
    rw [create_payment_eq_ok db cid oid ⟨req.paymentMethod, a⟩ txid m o ho hc hnp hm]

/-- C10 witness: the recorded payment's amount equals the concrete
order's total of twenty, for any caller-supplied amount field. -/
theorem C10_witness :
    (create_payment dbC 7 1 ⟨some "Cash", some 999⟩ "tx2").2 = .ok () ∧
    ((create_payment dbC 7 1 ⟨some "Cash", some 999⟩ "tx2").1.getPayment 1).map
      Payment.amount = some exOrder.totalAmount ∧
    (∀ a : Option Int, create_payment dbC 7 1 ⟨some "Cash", a⟩ "tx2" =
      create_payment dbC 7 1 ⟨some "Cash", some 999⟩ "tx2") :=
  C10_payment_amount dbC 7 1 ⟨some "Cash", some 999⟩ "tx2" "Cash" exOrder
    (by decide) (by decide) (by decide) (by decide)

/-- C9: the seller-side status update overwrites the order's status with
exactly the requested value for every status in the fixed allow-list
Pending, Confirmed, Preparing, Ready, Delivered, Completed, Cancelled,
regardless of the current status, and rejects any requested status
outside the list (including a missing one) with a validation error and
no change to the store. -/
theorem C9_status_overwrite (db : DB) (sid oid : Nat) (s : String) (o : Order)
    (ho : db.orders.find? (fun x => x.orderId == oid && x.sellerId == sid) = some o) :
    valid_statuses = ["Pending", "Confirmed", "Preparing", "Ready", "Delivered",
      "Completed", "Cancelled"] ∧
    ((update_order_status db sid oid (some s)).2 = .ok () ↔ s ∈ valid_statuses) ∧
    (((update_order_status db sid oid (some s)).1.orders.find?
        (fun x => x.orderId == oid && x.sellerId == sid)).map Order.status =
      if s ∈ valid_statuses then some s else some o.status) ∧
    ((update_order_status db sid oid (some s)).2 = .ok () ∨
      update_order_status db sid oid (some s) = (db, .error .invalidStatus)) ∧
    update_order_status db sid oid none = (db, .error .invalidStatus) := by
  by_cases hs : s ∈ valid_statuses
  · rw [update_order_status_eq_ok db sid oid s o ho hs]
    refine ⟨rfl, by simp [hs], ?_, Or.inl rfl, update_order_status_eq_none db sid oid o ho⟩
    rw [if_pos hs]
    show ((updateFirst (fun x => x.orderId == oid && x.sellerId == sid)
      (fun x => { x with status := s }) db.orders).find?
        (fun x => x.orderId == oid && x.sellerId == sid)).map Order.status = some s
    rw [find?_updateFirst_self (fun x => x.orderId == oid && x.sellerId == sid)
      (fun x => { x with status := s }) db.orders (fun a => rfl), ho]
    rfl
  · rw [update_order_status_eq_reject db sid oid s o ho hs]
    refine ⟨rfl, by simp [hs], ?_, Or.inr rfl, update_order_status_eq_none db sid oid o ho⟩
    rw [if_neg hs]
    show (db.orders.find? (fun x => x.orderId == oid && x.sellerId == sid)).map
      Order.status = some o.status
    rw [ho]
    rfl

/-- C9 witness: on the concrete Preparing order, the allow-listed status
Pending is applied verbatim (a backwards move the state machine of the
spec would forbid), and a status outside the list is rejected. -/
theorem C9_witness :
    (valid_statuses = ["Pending", "Confirmed", "Preparing", "Ready", "Delivered",
      "Completed", "Cancelled"] ∧
    ((update_order_status dbD 3 1 (some "Pending")).2 = .ok () ↔
      "Pending" ∈ valid_statuses) ∧
    (((update_order_status dbD 3 1 (some "Pending")).1.orders.find?
        (fun x => x.orderId == 1 && x.sellerId == 3)).map Order.status =
      if "Pending" ∈ valid_statuses then some "Pending"
      else some ({ exOrder with status := "Preparing" } : Order).status) ∧
    ((update_order_status dbD 3 1 (some "Pending")).2 = .ok () ∨
      update_order_status dbD 3 1 (some "Pending") = (dbD, .error .invalidStatus)) ∧
    update_order_status dbD 3 1 none = (dbD, .error .invalidStatus)) :=
  C9_status_overwrite dbD 3 1 "Pending" { exOrder with status := "Preparing" } (by decide)

/-- C8 counterexample: from a store with stock zero and no validation of
line quantities, creating an order for quantity minus one (stock rises
to one), then an order for quantity one (stock back to zero), then
cancelling the first order, drives the stock to minus one: the release
performed by cancellation breaks the non-negativity invariant from a
state with every stock non-negative. -/
theorem C8_counterexample :
    (∀ i ∈ dbE.inventories, 0 ≤ i.quantityInStock) ∧
    (create_order dbE 7 (pickupReq (-1)) 0).2 = .ok 1 ∧
    (create_order ((create_order dbE 7 (pickupReq (-1)) 0).1) 7 (pickupReq 1) 0).2 =
      .ok 2 ∧
    (cancel_order ((create_order ((create_order dbE 7 (pickupReq (-1)) 0).1) 7
      (pickupReq 1) 0).1) 7 1 0).2 = .ok () ∧
    ((cancel_order ((create_order ((create_order dbE 7 (pickupReq (-1)) 0).1) 7
      (pickupReq 1) 0).1) 7 1 0).1.getInventory 1).map Inventory.quantityInStock =
      some (-1) := by
  decide

/-- C8 (amended): given every stock non-negative, order creation's
guarded decrement and the seller restock keep every inventory record
non-negative unconditionally; cancellation's release also does provided
every stored order-item quantity is non-negative — a precondition order
creation does not enforce. -/
theorem C8_stock_nonneg (db : DB) (cid : Nat) (req : CreateOrderReq) (sid pid : Nat)
    (qc : Option Int) (oid now : Nat)
    (hnn : ∀ i ∈ db.inventories, 0 ≤ i.quantityInStock)
    (hq : ∀ it ∈ db.order_items, 0 ≤ it.quantity) :
    (∀ i ∈ (create_order db cid req now).1.inventories, 0 ≤ i.quantityInStock) ∧
    (∀ i ∈ (update_inventory db sid pid qc now).1.inventories, 0 ≤ i.quantityInStock) ∧
    (∀ i ∈ (cancel_order db cid oid now).1.inventories, 0 ≤ i.quantityInStock) := by
  refine ⟨create_order_nonneg db cid req now hnn,
    update_inventory_nonneg db sid pid qc now hnn, ?_⟩
  rcases cancel_order_fst_or_ok db cid oid now with h | h
  · rw [h]; exact hnn
  · obtain ⟨o, ho, hc, h1, h2, hords, hinvs⟩ := cancel_order_ok_spec db cid oid now h
    rw [hinvs]
    refine releaseItems_nonneg now _ _ hnn ?_
    intro it hit
    exact hq it (List.mem_of_mem_filter hit)

/-- C8 witness: the three modelled operations applied to the concrete
store with non-negative stocks and item quantities keep every stock
non-negative. -/
theorem C8_witness :
    (∀ i ∈ (create_order dbC 7 (pickupReq 2) 0).1.inventories, 0 ≤ i.quantityInStock) ∧
    (∀ i ∈ (update_inventory dbC 3 1 (some (-100)) 0).1.inventories,
      0 ≤ i.quantityInStock) ∧
    (∀ i ∈ (cancel_order dbC 7 1 0).1.inventories, 0 ≤ i.quantityInStock) :=
  C8_stock_nonneg dbC 7 (pickupReq 2) 3 1 (some (-100)) 1 0 (by decide) (by decide)

/-- C6 counterexample: a request whose single line carries quantity
zero — not a positive integer — is accepted: an order is created holding
a zero-quantity line, where the claim demands a validation rejection. -/
theorem C6_counterexample :
    (create_order dbA 7 (pickupReq 0) 0).2 = .ok 1 ∧
    ((create_order dbA 7 (pickupReq 0) 0).1.itemsOfOrder 1).map OrderItem.quantity =
      [0] := by
  decide

/-- C6 (amended): create_order rejects, creating no order and mutating
no inventory, every request whose items list is missing or empty, every
request containing a line missing its productId or quantity key, and
every request containing a line whose product id does not resolve; it
does not validate quantities for positivity (zero and negative
quantities are accepted). -/
theorem C6_validation (db : DB) (cid now pid : Nat) (hp : db.getProduct pid = none) :
    (∀ t da n et, create_order db cid ⟨none, t, da, n, et⟩ now =
      (db, .error .itemsRequired)) ∧
    (∀ t da n et, create_order db cid ⟨some [], t, da, n, et⟩ now =
      (db, .error .itemsRequired)) ∧
    (∀ t da n et pre q up post,
      (create_order db cid ⟨some (pre ++ OrderItemReq.mk none q up :: post),
        t, da, n, et⟩ now).1 = db ∧
      ∃ e, (create_order db cid ⟨some (pre ++ OrderItemReq.mk none q up :: post),
        t, da, n, et⟩ now).2 = .error e) ∧
    (∀ t da n et pre pid2 up post,
      (create_order db cid ⟨some (pre ++ OrderItemReq.mk (some pid2) none up :: post),
        t, da, n, et⟩ now).1 = db ∧
      ∃ e, (create_order db cid ⟨some (pre ++ OrderItemReq.mk (some pid2) none up :: post),
        t, da, n, et⟩ now).2 = .error e) ∧
    (∀ t da n et pre q up post,
      (create_order db cid ⟨some (pre ++ OrderItemReq.mk (some pid) (some q) up :: post),
        t, da, n, et⟩ now).1 = db ∧
      ∃ e, (create_order db cid ⟨some (pre ++ OrderItemReq.mk (some pid) (some q) up :: post),
        t, da, n, et⟩ now).2 = .error e) := by
  refine ⟨fun t da n et => create_order_items_none_eq db cid _ now rfl,
    fun t da n et => create_order_items_nil_eq db cid _ now rfl, ?_, ?_, ?_⟩
  · intro t da n et pre q up post
    obtain ⟨e, he⟩ := validateItems_bad_line (OrderItemReq.mk none q up)
      (Or.inl rfl) pre post 0
    have heq := create_order_bad_items_error db cid now
      ⟨some (pre ++ OrderItemReq.mk none q up :: post), t, da, n, et⟩ _ rfl e he
    exact ⟨by rw [heq], e, by rw [heq]⟩
  · intro t da n et pre pid2 up post
    obtain ⟨e, he⟩ := validateItems_bad_line (OrderItemReq.mk (some pid2) none up)
      (Or.inr rfl) pre post 0
    have heq := create_order_bad_items_error db cid now
      ⟨some (pre ++ OrderItemReq.mk (some pid2) none up :: post), t, da, n, et⟩ _ rfl e he
    exact ⟨by rw [heq], e, by rw [heq]⟩
  · intro t da n et pre q up post
    have hbad : db.products.find? (fun x => x.productId == pid) = none := hp
    rcases hv : validateItems (pre ++ OrderItemReq.mk (some pid) (some q) up :: post) 0
      with _ | e
    · rcases pre with _ | ⟨a, pre'⟩
      · have heq := create_order_first_product_eq db cid
          ⟨some ([] ++ OrderItemReq.mk (some pid) (some q) up :: post), t, da, n, et⟩ now
          (OrderItemReq.mk (some pid) (some q) up) post (by rw [List.nil_append]) hv hp
        exact ⟨by rw [heq], .firstProductNotFound, by rw [heq]⟩
      · rw [List.cons_append] at hv
        rcases hfp : db.getProduct (a.productId.getD 0) with _ | fp
        · have heq := create_order_first_product_eq db cid
            ⟨some ((a :: pre') ++ OrderItemReq.mk (some pid) (some q) up :: post),
              t, da, n, et⟩ now a (pre' ++ OrderItemReq.mk (some pid) (some q) up :: post)
            (by rw [List.cons_append]) hv hfp
          exact ⟨by rw [heq], .firstProductNotFound, by rw [heq]⟩
        · obtain ⟨e, he⟩ := processOrderItems_unresolvable db.products db.nextOrderId now
            pid hbad (a :: pre') post (some q) up db.inventories [] 0 db.nextOrderItemId
          rw [List.cons_append] at he
          have heq := create_order_loop_error_eq db cid
            ⟨some ((a :: pre') ++ OrderItemReq.mk (some pid) (some q) up :: post),
              t, da, n, et⟩ now a (pre' ++ OrderItemReq.mk (some pid) (some q) up :: post)
            fp e (by rw [List.cons_append]) hv hfp he
          exact ⟨by rw [heq], e, by rw [heq]⟩
    · have heq := create_order_bad_items_error db cid now
        ⟨some (pre ++ OrderItemReq.mk (some pid) (some q) up :: post), t, da, n, et⟩
        _ rfl e hv
      exact ⟨by rw [heq], e, by rw [heq]⟩

/-- C6 witness: the five rejection families instantiated on the concrete
store with the unresolvable product id ninety-nine. -/
theorem C6_witness :
    dbA.getProduct 99 = none ∧
    ((∀ t da n et, create_order dbA 7 ⟨none, t, da, n, et⟩ 0 =
      (dbA, .error .itemsRequired)) ∧
    (∀ t da n et, create_order dbA 7 ⟨some [], t, da, n, et⟩ 0 =
      (dbA, .error .itemsRequired)) ∧
    (∀ t da n et pre q up post,
      (create_order dbA 7 ⟨some (pre ++ OrderItemReq.mk none q up :: post),
        t, da, n, et⟩ 0).1 = dbA ∧
      ∃ e, (create_order dbA 7 ⟨some (pre ++ OrderItemReq.mk none q up :: post),
        t, da, n, et⟩ 0).2 = .error e) ∧
    (∀ t da n et pre pid2 up post,
      (create_order dbA 7 ⟨some (pre ++ OrderItemReq.mk (some pid2) none up :: post),
        t, da, n, et⟩ 0).1 = dbA ∧
      ∃ e, (create_order dbA 7 ⟨some (pre ++ OrderItemReq.mk (some pid2) none up :: post),
        t, da, n, et⟩ 0).2 = .error e) ∧
    (∀ t da n et pre q up post,
      (create_order dbA 7 ⟨some (pre ++ OrderItemReq.mk (some 99) (some q) up :: post),
        t, da, n, et⟩ 0).1 = dbA ∧
      ∃ e, (create_order dbA 7 ⟨some (pre ++ OrderItemReq.mk (some 99) (some q) up :: post),
        t, da, n, et⟩ 0).2 = .error e)) :=
  ⟨by decide, C6_validation dbA 7 0 99 (by decide)⟩

/-- C7 counterexample: product two is available but has no inventory
record, and create_order on it succeeds while touching no inventory: the
missing record is treated as unlimited stock with a silent skip of the
check and decrement, not as unavailable. -/
theorem C7_counterexample :
    dbB.getProduct 2 = some exProduct2 ∧
    dbB.getInventory 2 = none ∧
    (create_order dbB 7 pickup2Req 0).2 = .ok 1 ∧
    (create_order dbB 7 pickup2Req 0).1.inventories = dbB.inventories := by
  decide

/-- C7 (amended): Inventory.check_availability on an existing record is
true exactly when the stock covers the requested quantity; but in
create_order a product lacking an inventory record skips both the stock
check and the decrement entirely, so the order succeeds with all
inventories untouched. -/
theorem C7_availability_semantics (db : DB) (cid now pid : Nat) (q : Int)
    (up : Option Int) (p : Product) (hp : db.getProduct pid = some p)
    (hav : p.isAvailable = true) (hni : db.getInventory pid = none) :
    (∀ (inv : Inventory) (qty : Int),
      inv.check_availability qty = true ↔ qty ≤ inv.quantityInStock) ∧
    (create_order db cid ⟨some [OrderItemReq.mk (some pid) (some q) up],
      some "Pickup", none, none, none⟩ now).2 = .ok db.nextOrderId ∧
    (create_order db cid ⟨some [OrderItemReq.mk (some pid) (some q) up],
      some "Pickup", none, none, none⟩ now).1.inventories = db.inventories := by
  have hfind : db.products.find? (fun x => x.productId == pid) = some p := hp
  have hni0 : db.inventories.find? (fun i => i.productId == pid) = none := hni
  have hproc : processOrderItems db.products db.nextOrderId now
      [OrderItemReq.mk (some pid) (some q) up] db.inventories [] 0 db.nextOrderItemId =
      .ok (db.inventories,
        [OrderItem.mk db.nextOrderItemId db.nextOrderId pid q (up.getD p.unitPrice * q)],
        up.getD p.unitPrice * q, db.nextOrderItemId + 1) := by
    simp [processOrderItems, hfind, hav, hni0]
  have heq := create_order_eq_nodelivery db cid
    ⟨some [OrderItemReq.mk (some pid) (some q) up], some "Pickup", none, none, none⟩ now
    (OrderItemReq.mk (some pid) (some q) up) [] p db.inventories
    [OrderItem.mk db.nextOrderItemId db.nextOrderId pid q (up.getD p.unitPrice * q)]
    (up.getD p.unitPrice * q) (db.nextOrderItemId + 1) rfl rfl hp hproc rfl
  refine ⟨?_, ?_, ?_⟩
  · intro inv qty
    simp [Inventory.check_availability, ge_iff_le]
  · rw [heq]
  · rw [heq]

/-- C7 witness: the availability semantics instantiated at the concrete
store where product two lacks an inventory record. -/
theorem C7_witness :
    ((∀ (inv : Inventory) (qty : Int),
      inv.check_availability qty = true ↔ qty ≤ inv.quantityInStock) ∧
    (create_order dbB 7 ⟨some [OrderItemReq.mk (some 2) (some 3) none],
      some "Pickup", none, none, none⟩ 0).2 = .ok dbB.nextOrderId ∧
    (create_order dbB 7 ⟨some [OrderItemReq.mk (some 2) (some 3) none],
      some "Pickup", none, none, none⟩ 0).1.inventories = dbB.inventories) :=
  C7_availability_semantics dbB 7 0 2 3 none exProduct2
    (by decide) (by decide) (by decide)

end FoodOrder
